import Mathlib

/-!
# Cory-bot: authorization and permission synchronisation

A shallow embedding of `main.go` (package `main` of Mexican-Man/Cory-bot).

* The global `cfg` is passed explicitly and returned by the functions that assign to it.
* The calls the program makes on the chat session and on the file system are recorded,
  in program order, as a list of `Call` values.
* `State.Guild` of the client library returns `(nil, err)` for an unknown guild id; it is
  an `Option` here, and reading a field through the nil pointer is the fault
  `Fault.nilPointerDereference`.
* The result (error or not) of the two calls whose error the program inspects,
  `GuildMemberRoleAdd` and `GuildMemberRoleRemove`, is given by a parameter
  `api : Call → Bool` (`true`: the call returned a nil error).
* `int64` fields are `Int`: the program only copies them.
-/

namespace CoryBot

/-! ## Data model -/

/-- The anonymous struct `Config.Bot`. A field that is absent from `config.yml` has the Go
zero value: the empty string, or 0. -/
structure Bot where
  Token : String
  TimeoutChannel : String
  ModRoleID : String
  TimeoutRoleID : String
  GuildID : String
  PermissionAll : Int
  PermissionTimeout : Int
deriving DecidableEq

/-- The type `Config`, loaded from config.yml. -/
structure Config where
  Bot : CoryBot.Bot
deriving DecidableEq

/-- The zero value of `Config`, the initial value of `var cfg Config`. -/
def Config.zero : Config := ⟨⟨"", "", "", "", "", 0, 0⟩⟩

/-- The part of `discordgo.User` the program reads. -/
structure User where
  ID : String
deriving DecidableEq

/-- The part of `discordgo.Member` the program reads. -/
structure Member where
  User : CoryBot.User
  Roles : List String
deriving DecidableEq

/-- The constant `discordgo.ChannelTypeGuildText`. -/
def ChannelTypeGuildText : Nat := 0

/-- The part of `discordgo.Channel` the program reads; `ChanType` is its field `Type`. -/
structure Channel where
  ID : String
  ChanType : Nat
deriving DecidableEq

/-- The part of `discordgo.Guild` the program reads. -/
structure Guild where
  ID : String
  OwnerID : String
  Members : List Member
  Channels : List Channel
deriving DecidableEq

/-- The part of `discordgo.State` the program reads: the bot user and the cached guilds. -/
structure State where
  User : CoryBot.User
  Guilds : List CoryBot.Guild
deriving DecidableEq

/-- The part of `discordgo.Session` the program reads. -/
structure Session where
  State : CoryBot.State
deriving DecidableEq

/-- The lookup `s.State.Guild(guildID)`: the cached guild with that id, `none` standing for
the library result `(nil, ErrStateNotFound)`. -/
def State.Guild (st : State) (guildID : String) : Option CoryBot.Guild :=
  st.Guilds.find? (fun g => g.ID == guildID)

/-- The overwrite target kinds of the client library. -/
inductive PermissionOverwriteType where
  | PermissionOverwriteTypeRole
  | PermissionOverwriteTypeMember
deriving DecidableEq

/-- The two response types the program uses. -/
inductive InteractionResponseType where
  | InteractionResponseChannelMessageWithSource
  | InteractionResponseDeferredChannelMessageWithSource
deriving DecidableEq

/-- A call of the program on the session or on the file system, with the arguments the
program passes. `osWriteFile` carries the configuration whose `yaml.Marshal` is written. -/
inductive Call where
  | ChannelPermissionSet (channelID targetID : String) (targetType : PermissionOverwriteType)
      (allow deny : Int)
  | GuildMemberRoleAdd (guildID userID roleID : String)
  | GuildMemberRoleRemove (guildID userID roleID : String)
  | InteractionRespond (respType : InteractionResponseType) (content : String)
  | FollowupMessageCreate (appID : String) (wait : Bool) (content : String)
  | osCreate (name : String)
  | osRemove (name : String)
  | osWriteFile (name : String) (data : Config)
deriving DecidableEq

/-- A run-time panic of the Go program. -/
inductive Fault where
  | nilPointerDereference
deriving DecidableEq

/-! ## `hasRole`, `updateConfigFile`, `setChannelPerms` -/

/-- The function `hasRole`: the loop returns true at the first element of `user.Roles`
equal to `role`, and false when there is none. -/
def hasRole (user : Member) (role : String) : Bool :=
  user.Roles.any (fun r => r == role)

/-- The function `updateConfigFile`: remove config.yml, then write the marshalled `cfg`. -/
def updateConfigFile (cfg : Config) : List Call :=
  [Call.osRemove "config.yml", Call.osWriteFile "config.yml" cfg]

/-- The call issued by the body of the loop of `setChannelPerms` for channel `c`. -/
def channelPerm (cfg : Config) (c : Channel) : Call :=
  if c.ID == cfg.Bot.TimeoutChannel then
    Call.ChannelPermissionSet c.ID cfg.Bot.TimeoutRoleID
      PermissionOverwriteType.PermissionOverwriteTypeRole cfg.Bot.PermissionTimeout 0
  else
    Call.ChannelPermissionSet c.ID cfg.Bot.TimeoutRoleID
      PermissionOverwriteType.PermissionOverwriteTypeRole 0 cfg.Bot.PermissionAll

/-- The function `setChannelPerms`. The error of the guild lookup is discarded, so for an
unknown guild id `channels` is nil and `channels.Channels` faults. Otherwise one
`ChannelPermissionSet` is issued per channel, in order; their errors are discarded. -/
def setChannelPerms (s : Session) (cfg : Config) : Except Fault (List Call) :=
  match s.State.Guild cfg.Bot.GuildID with
  | none => Except.error Fault.nilPointerDereference
  | some channels => Except.ok (channels.Channels.map (channelPerm cfg))

/-! ## `interactionHandler` -/

/-- The part of `discordgo.Interaction` the program reads. `Option0` is the id carried by
`ApplicationCommandData().Options[0]`: the library accessors `UserValue(s)`,
`RoleValue(s, guild.ID)` and `ChannelValue(s)` all return an object with that id.
`ChannelValueType` is the field `Type` of the channel returned by `ChannelValue(s)`.
The lookups these accessors make in the library are reads and are not recorded as calls.
The registered command schema makes option 0 required and of the kind the handler reads;
`Member` is present on every interaction that comes from a guild. -/
structure Interaction where
  GuildID : String
  Member : CoryBot.Member
  Option0 : String
  ChannelValueType : Nat
deriving DecidableEq

/-- The two tests before the label AUTHORIZED of `interactionHandler`. -/
def authorized (cfg : Config) (guild : Guild) (i : Interaction) : Bool :=
  if i.Member.User.ID == guild.OwnerID then true
  else if hasRole i.Member cfg.Bot.ModRoleID then true
  else false

/-- The message sent by `InteractionRespond` with type ChannelMessageWithSource. -/
def respond (content : String) : Call :=
  Call.InteractionRespond InteractionResponseType.InteractionResponseChannelMessageWithSource
    content

/-- The function `interactionHandler`, with `kind` as in the source: 0 add timeout,
1 remove timeout, 2 set mod role, 3 set timeout role, 4 set timeout channel.
The result is the value of `cfg` at return and the calls issued, in order. -/
def interactionHandler (api : Call → Bool) (s : Session) (cfg : Config) (i : Interaction)
    (kind : Int) : Except Fault (Config × List Call) :=
  match s.State.Guild i.GuildID with
  | none => Except.ok (cfg, [])
  | some guild =>
    if authorized cfg guild i then
      if kind = 0 ∨ kind = 1 then
        match guild.Members.find? (fun m => m.User.ID == i.Option0) with
        | none => Except.ok (cfg, [])
        | some member =>
          if kind = 1 ∧ hasRole member cfg.Bot.TimeoutRoleID = true then
            let call := Call.GuildMemberRoleRemove guild.ID member.User.ID cfg.Bot.TimeoutRoleID
            if api call then
              Except.ok (cfg, [call,
                respond ("<@" ++ i.Option0 ++ "> has been taken out of timeout.")])
            else Except.ok (cfg, [call])
          else if kind = 0 ∧ hasRole member cfg.Bot.TimeoutRoleID = false then
            let call := Call.GuildMemberRoleAdd guild.ID member.User.ID cfg.Bot.TimeoutRoleID
            if api call then
              Except.ok (cfg, [call,
                respond ("<@" ++ i.Option0 ++ "> has been put on timeout.")])
            else Except.ok (cfg, [call])
          else Except.ok (cfg, [])
      else if kind = 2 then
        if i.Member.User.ID != guild.OwnerID then Except.ok (cfg, [])
        else
          let cfg1 : Config := ⟨{ cfg.Bot with ModRoleID := i.Option0, GuildID := i.GuildID }⟩
          Except.ok (cfg1, updateConfigFile cfg1 ++
            [respond ("<@" ++ i.Option0 ++ "> has been set as the new mod role.")])
      else if kind = 3 then
        if i.Member.User.ID != guild.OwnerID then Except.ok (cfg, [])
        else
          let cfg1 : Config :=
            ⟨{ cfg.Bot with TimeoutRoleID := i.Option0, GuildID := i.GuildID }⟩
          match setChannelPerms s cfg1 with
          | Except.error f => Except.error f
          | Except.ok sweep =>
            Except.ok (cfg1, updateConfigFile cfg1 ++ sweep ++
              [respond ("<@" ++ i.Option0 ++ "> has been set as the new timeout role.")])
      else if kind = 4 then
        if i.Member.User.ID != guild.OwnerID || i.ChannelValueType != ChannelTypeGuildText then
          Except.ok (cfg, [])
        else
          let cfg1 : Config :=
            ⟨{ cfg.Bot with TimeoutChannel := i.Option0, GuildID := i.GuildID }⟩
          match setChannelPerms s cfg1 with
          | Except.error f => Except.error f
          | Except.ok sweep =>
            Except.ok (cfg1,
              [Call.InteractionRespond
                InteractionResponseType.InteractionResponseDeferredChannelMessageWithSource
                "Loading..."] ++
              updateConfigFile cfg1 ++ sweep ++
              [Call.FollowupMessageCreate s.State.User.ID true
                ("<#" ++ i.Option0 ++ "> has been set as the new timeout channel.")])
      else Except.ok (cfg, [])
    else Except.ok (cfg, [])

/-! ## The start of `main`: reading config.yml -/

/-- Go error values, as far as `main` distinguishes them. `ErrNotExist` is the value of the
variable `os.ErrNotExist`; `PathError` is a `*fs.PathError`; `Errno` a `syscall.Errno`. -/
inductive GoError where
  | ErrNotExist
  | Errno (n : Nat)
  | PathError (Op Path : String) (Err : GoError)
  | other (msg : String)
deriving DecidableEq

/-- The constant `syscall.ENOENT`. -/
def ENOENT : GoError := GoError.Errno 2

/-- The standard library call `os.ReadFile(name)` on a file system where the file either is
absent (`none`) or has the given contents. For an absent file the error is the
`*fs.PathError` of the failed open, which wraps `ENOENT`. -/
def osReadFile (name : String) (file : Option String) : String × Option GoError :=
  match file with
  | none => ("", some (GoError.PathError "open" name ENOENT))
  | some b => (b, none)

/-- How the first two blocks of `main` end: `log.Fatalln` (the process exits), or control
reaches the creation of the bot with this `cfg`, after these calls on the file system. -/
inductive Startup where
  | fatal (err : GoError)
  | proceeds (cfg : Config) (calls : List Call)
deriving DecidableEq

/-- The blocks "Read config" and "Parse config" of `main`. `cfg` is the zero value at entry.
`err == os.ErrNotExist` is the comparison of two interface values.
`unmarshal b cfg` stands for `yaml.Unmarshal(b, &cfg)`. -/
def main (unmarshal : String → Config → Except GoError Config) (file : Option String) :
    Startup :=
  let cfg : Config := Config.zero
  let (b, err) := osReadFile "config.yml" file
  if err = some GoError.ErrNotExist then
    let cfg1 : Config := ⟨{ cfg.Bot with PermissionAll := 34816 }⟩
    match unmarshal b cfg1 with
    | Except.error e => Startup.fatal e
    | Except.ok cfg2 =>
      Startup.proceeds cfg2 (Call.osCreate "config.yml" :: updateConfigFile cfg1)
  else
    match err with
    | some e => Startup.fatal e
    | none =>
      match unmarshal b cfg with
      | Except.error e => Startup.fatal e
      | Except.ok cfg2 => Startup.proceeds cfg2 []

/-! ## The platform

The effect of the calls on the chat platform, as far as the properties below need it:
a successful `ChannelPermissionSet` replaces the overwrite of that target on that channel.
No call changes the session cache: the program never writes it, and the library refreshes
it only when a later gateway event arrives, which is not part of a command. -/

/-- The overwrite of one target on one channel. -/
structure Overwrite where
  ChannelID : String
  TargetID : String
  Allow : Int
  Deny : Int
deriving DecidableEq

/-- The session, the global `cfg`, and the overwrites in force on the platform. -/
structure World where
  session : Session
  cfg : Config
  overwrites : List Overwrite
deriving DecidableEq

/-- Whether `o` is the overwrite of `targetID` on `channelID`. -/
def sameSlot (channelID targetID : String) (o : Overwrite) : Bool :=
  o.ChannelID == channelID && o.TargetID == targetID

/-- The overwrite in force for `targetID` on `channelID`, if any. -/
def overwriteOf (ows : List Overwrite) (channelID targetID : String) : Option Overwrite :=
  ows.find? (sameSlot channelID targetID)

/-- Replace the overwrite of `o.TargetID` on `o.ChannelID` by `o`. -/
def setOverwrite (ows : List Overwrite) (o : Overwrite) : List Overwrite :=
  o :: ows.filter (fun p => !sameSlot o.ChannelID o.TargetID p)

/-- The effect of one call on the world: a successful `ChannelPermissionSet` replaces an
overwrite; a failed call, a role call, a message and a file operation leave the session,
`cfg` and the overwrites as they are. -/
def applyCall (api : Call → Bool) (w : World) (c : Call) : World :=
  if api c then
    match c with
    | Call.ChannelPermissionSet ch t _ a d =>
      { w with overwrites := setOverwrite w.overwrites ⟨ch, t, a, d⟩ }
    | _ => w
  else w

/-- The effect of a sequence of calls, in order. -/
def applyCalls (api : Call → Bool) (w : World) (calls : List Call) : World :=
  calls.foldl (applyCall api) w

/-- One command: `interactionHandler` on the current session and `cfg`, then the effect of
its calls. -/
def step (api : Call → Bool) (w : World) (i : Interaction) (kind : Int) :
    Except Fault (World × List Call) :=
  match interactionHandler api w.session w.cfg i kind with
  | Except.error f => Except.error f
  | Except.ok (cfg1, calls) => Except.ok (applyCalls api { w with cfg := cfg1 } calls, calls)

/-- Whether a call sends a message to the invoking user. -/
def isResponse : Call → Bool
  | Call.InteractionRespond _ _ => true
  | Call.FollowupMessageCreate _ _ _ => true
  | _ => false

/-! ## Example data -/

/-- A guild owned by user "owner", with a moderator, a plain member and two text
channels. -/
def exGuild : Guild :=
  { ID := "g1", OwnerID := "owner",
    Members := [⟨⟨"owner"⟩, []⟩, ⟨⟨"mod"⟩, ["M1"]⟩, ⟨⟨"u1"⟩, []⟩],
    Channels := [⟨"A", 0⟩, ⟨"B", 0⟩] }

/-- A session whose cache holds `exGuild` only. -/
def exSession : Session := ⟨⟨⟨"bot"⟩, [exGuild]⟩⟩

/-- The session `exSession` once the cache shows member u1 with the timeout role R1. -/
def timedOutSession : Session :=
  ⟨⟨⟨"bot"⟩, [{ exGuild with
    Members := [⟨⟨"owner"⟩, []⟩, ⟨⟨"mod"⟩, ["M1"]⟩, ⟨⟨"u1"⟩, ["R1"]⟩] }]⟩⟩

/-- A configuration for `exGuild`: mod role M1, timeout role R1, timeout channel A. -/
def exConfig : Config := ⟨⟨"", "A", "M1", "R1", "g1", 34816, 2048⟩⟩

/-- The configuration of a config.yml that only gives the default deny mask. -/
def freshConfig : Config := ⟨⟨"", "", "", "", "", 34816, 0⟩⟩

/-- The configuration `exConfig` with no timeout role. -/
def unsetRoleConfig : Config := ⟨⟨"", "A", "M1", "", "g1", 34816, 2048⟩⟩

/-- The configuration `exConfig` with no mod role. -/
def noModConfig : Config := ⟨⟨"", "A", "", "R1", "g1", 34816, 2048⟩⟩

/-- A command on member u1 invoked in `exGuild` by the owner. -/
def ownerOnU1 : Interaction := ⟨"g1", ⟨⟨"owner"⟩, []⟩, "u1", 0⟩

/-- A command on member u1 invoked in `exGuild` by the moderator. -/
def modOnU1 : Interaction := ⟨"g1", ⟨⟨"mod"⟩, ["M1"]⟩, "u1", 0⟩

/-- A command on member u1 invoked in `exGuild` by a member without roles. -/
def plainOnU1 : Interaction := ⟨"g1", ⟨⟨"u2"⟩, []⟩, "u1", 0⟩

/-- The owner of `exGuild` naming the text channel B. -/
def ownerOnB : Interaction := ⟨"g1", ⟨⟨"owner"⟩, []⟩, "B", 0⟩

/-- The moderator of `exGuild` naming the text channel B. -/
def modOnB : Interaction := ⟨"g1", ⟨⟨"mod"⟩, ["M1"]⟩, "B", 0⟩

/-- A platform on which every call succeeds. -/
def apiOk : Call → Bool := fun _ => true

/-- A platform on which every call fails. -/
def apiErr : Call → Bool := fun _ => false

/-! ## Lemmas on the platform model -/

theorem find?_filter_of_imp {α : Type} (q r : α → Bool)
    (h : ∀ x, q x = true → r x = true) (l : List α) :
    (l.filter r).find? q = l.find? q := by
  induction l with
  | nil => rfl
  | cons p ps ih =>
    cases hq : q p with
    | true => simp [List.filter_cons, h p hq, List.find?_cons, hq]
    | false =>
      cases hr : r p with
      | true => simp [List.filter_cons, hr, List.find?_cons, hq, ih]
      | false => simp [List.filter_cons, hr, List.find?_cons, hq, ih]

theorem sameSlot_iff (ch t : String) (o : Overwrite) :
    sameSlot ch t o = true ↔ o.ChannelID = ch ∧ o.TargetID = t := by
  simp [sameSlot]

theorem overwriteOf_setOverwrite (ows : List Overwrite) (o : Overwrite) (ch t : String) :
    overwriteOf (setOverwrite ows o) ch t =
      if o.ChannelID = ch ∧ o.TargetID = t then some o else overwriteOf ows ch t := by
  unfold overwriteOf setOverwrite
  by_cases h : o.ChannelID = ch ∧ o.TargetID = t
  · rw [if_pos h, List.find?_cons, (sameSlot_iff ch t o).2 h]
  · have hb : sameSlot ch t o = false := by
      cases hs : sameSlot ch t o with
      | false => rfl
      | true => exact absurd ((sameSlot_iff ch t o).1 hs) h
    rw [if_neg h, List.find?_cons, hb]
    apply find?_filter_of_imp
    intro x hx
    cases hs : sameSlot o.ChannelID o.TargetID x with
    | false => rfl
    | true =>
      have h1 := (sameSlot_iff ch t x).1 hx
      have h2 := (sameSlot_iff _ _ x).1 hs
      exact absurd ⟨h2.1.symm.trans h1.1, h2.2.symm.trans h1.2⟩ h

/-- The overwrite that the call `channelPerm cfg c` asks for, for a channel with id `id`. -/
def permOverwrite (cfg : Config) (id : String) : Overwrite :=
  if id = cfg.Bot.TimeoutChannel then ⟨id, cfg.Bot.TimeoutRoleID, cfg.Bot.PermissionTimeout, 0⟩
  else ⟨id, cfg.Bot.TimeoutRoleID, 0, cfg.Bot.PermissionAll⟩

theorem permOverwrite_slot (cfg : Config) (id : String) :
    (permOverwrite cfg id).ChannelID = id ∧
      (permOverwrite cfg id).TargetID = cfg.Bot.TimeoutRoleID := by
  unfold permOverwrite
  split <;> exact ⟨rfl, rfl⟩

theorem applyCall_channelPerm (api : Call → Bool) (w : World) (cfg : Config) (c : Channel)
    (h : api (channelPerm cfg c) = true) :
    applyCall api w (channelPerm cfg c) =
      { w with overwrites := setOverwrite w.overwrites (permOverwrite cfg c.ID) } := by
  unfold applyCall
  rw [if_pos h]
  unfold channelPerm permOverwrite
  by_cases hc : c.ID = cfg.Bot.TimeoutChannel
  · simp [hc]
  · simp [hc]

theorem applyCalls_sweep_cfg (api : Call → Bool) (cfg : Config) (chs : List Channel)
    (w : World) :
    (applyCalls api w (chs.map (channelPerm cfg))).cfg = w.cfg ∧
      (applyCalls api w (chs.map (channelPerm cfg))).session = w.session := by
  induction chs generalizing w with
  | nil => exact ⟨rfl, rfl⟩
  | cons c cs ih =>
    have h := ih (applyCall api w (channelPerm cfg c))
    have hs : (applyCall api w (channelPerm cfg c)).cfg = w.cfg ∧
        (applyCall api w (channelPerm cfg c)).session = w.session := by
      unfold applyCall channelPerm
      split <;> split <;> exact ⟨rfl, rfl⟩
    simp only [applyCalls, List.map_cons, List.foldl_cons] at h ⊢
    exact ⟨h.1.trans hs.1, h.2.trans hs.2⟩

theorem applyCalls_sweep (api : Call → Bool) (cfg : Config) (ch : Channel)
    (chs : List Channel) (w : World)
    (hok : ∀ c ∈ chs, api (channelPerm cfg c) = true)
    (hin : ch ∈ chs ∨ overwriteOf w.overwrites ch.ID cfg.Bot.TimeoutRoleID =
      some (permOverwrite cfg ch.ID)) :
    overwriteOf (applyCalls api w (chs.map (channelPerm cfg))).overwrites ch.ID
      cfg.Bot.TimeoutRoleID = some (permOverwrite cfg ch.ID) := by
  induction chs generalizing w with
  | nil =>
    rcases hin with hin | hin
    · exact absurd hin (List.not_mem_nil _)
    · exact hin
  | cons c cs ih =>
    have hc : api (channelPerm cfg c) = true := hok c (List.mem_cons_self _ _)
    have hcs : ∀ x ∈ cs, api (channelPerm cfg x) = true :=
      fun x hx => hok x (List.mem_cons_of_mem _ hx)
    simp only [applyCalls, List.map_cons, List.foldl_cons]
    apply ih _ hcs
    rw [applyCall_channelPerm api w cfg c hc]
    simp only [overwriteOf_setOverwrite, (permOverwrite_slot cfg c.ID).1,
      (permOverwrite_slot cfg c.ID).2]
    by_cases hid : c.ID = ch.ID
    · right
      rw [if_pos ⟨hid, trivial⟩, hid]
    · rcases hin with hin | hin
      · rcases List.mem_cons.1 hin with h | h
        · exact absurd (by rw [h]) hid
        · exact Or.inl h
      · right
        rw [if_neg (fun h => hid h.1)]
        exact hin

/-! ## Properties of `setChannelPerms` -/

/-- C1: when the guild named by `cfg` is in the session cache, `setChannelPerms` completes,
and once all its overwrite calls have succeeded every channel of the guild whose id is the
timeout channel carries the timeout-role overwrite (deny 0, allow PermissionTimeout), and
every other channel of the guild carries (deny PermissionAll, allow 0). -/
theorem setChannelPerms_overwrites (api : Call → Bool) (w : World) (g : Guild)
    (hg : w.session.State.Guild w.cfg.Bot.GuildID = some g) :
    ∃ calls, setChannelPerms w.session w.cfg = Except.ok calls ∧
      ((∀ c ∈ calls, api c = true) → ∀ ch ∈ g.Channels,
        (ch.ID = w.cfg.Bot.TimeoutChannel →
          overwriteOf (applyCalls api w calls).overwrites ch.ID w.cfg.Bot.TimeoutRoleID =
            some ⟨ch.ID, w.cfg.Bot.TimeoutRoleID, w.cfg.Bot.PermissionTimeout, 0⟩) ∧
        (ch.ID ≠ w.cfg.Bot.TimeoutChannel →
          overwriteOf (applyCalls api w calls).overwrites ch.ID w.cfg.Bot.TimeoutRoleID =
            some ⟨ch.ID, w.cfg.Bot.TimeoutRoleID, 0, w.cfg.Bot.PermissionAll⟩)) := by
  refine ⟨g.Channels.map (channelPerm w.cfg), ?_, ?_⟩
  · unfold setChannelPerms
    rw [hg]
  · intro hok ch hch
    have hok2 : ∀ c ∈ g.Channels, api (channelPerm w.cfg c) = true :=
      fun c hc => hok _ (List.mem_map_of_mem _ hc)
    have h := applyCalls_sweep api w.cfg ch g.Channels w hok2 (Or.inl hch)
    constructor
    · intro heq
      rw [h]; unfold permOverwrite; rw [if_pos heq]
    · intro hne
      rw [h]; unfold permOverwrite; rw [if_neg hne]

/-- Witness of C1 on the example guild: channel A carries the allow overwrite, channel B
the deny overwrite. -/
theorem setChannelPerms_overwrites_witness :
    ∃ calls, setChannelPerms exSession exConfig = Except.ok calls ∧
      ((∀ c ∈ calls, apiOk c = true) → ∀ ch ∈ exGuild.Channels,
        (ch.ID = "A" →
          overwriteOf (applyCalls apiOk ⟨exSession, exConfig, []⟩ calls).overwrites ch.ID "R1" =
            some ⟨ch.ID, "R1", 2048, 0⟩) ∧
        (ch.ID ≠ "A" →
          overwriteOf (applyCalls apiOk ⟨exSession, exConfig, []⟩ calls).overwrites ch.ID "R1" =
            some ⟨ch.ID, "R1", 0, 34816⟩)) :=
  setChannelPerms_overwrites apiOk ⟨exSession, exConfig, []⟩ exGuild (by decide)

/-- C6, as the code has it: with an empty `TimeoutRoleID` and the guild in the cache,
`setChannelPerms` still issues one overwrite call per channel of the guild, in order, each
with the empty role id as its target. -/
theorem setChannelPerms_unset_role (s : Session) (cfg : Config) (g : Guild)
    (hg : s.State.Guild cfg.Bot.GuildID = some g) (hunset : cfg.Bot.TimeoutRoleID = "") :
    setChannelPerms s cfg = Except.ok (g.Channels.map (fun c =>
      if c.ID = cfg.Bot.TimeoutChannel then
        Call.ChannelPermissionSet c.ID "" PermissionOverwriteType.PermissionOverwriteTypeRole
          cfg.Bot.PermissionTimeout 0
      else
        Call.ChannelPermissionSet c.ID "" PermissionOverwriteType.PermissionOverwriteTypeRole
          0 cfg.Bot.PermissionAll)) := by
  unfold setChannelPerms
  rw [hg]
  show Except.ok _ = Except.ok _
  congr 1
  apply List.map_congr_left
  intro c _
  unfold channelPerm
  rw [hunset]
  by_cases hc : c.ID = cfg.Bot.TimeoutChannel
  · simp [hc]
  · simp [hc]

/-- Witness of `setChannelPerms_unset_role` on the example guild. -/
theorem setChannelPerms_unset_role_witness :
    setChannelPerms exSession unsetRoleConfig = Except.ok (exGuild.Channels.map (fun c =>
      if c.ID = unsetRoleConfig.Bot.TimeoutChannel then
        Call.ChannelPermissionSet c.ID "" PermissionOverwriteType.PermissionOverwriteTypeRole
          unsetRoleConfig.Bot.PermissionTimeout 0
      else
        Call.ChannelPermissionSet c.ID "" PermissionOverwriteType.PermissionOverwriteTypeRole
          0 unsetRoleConfig.Bot.PermissionAll)) :=
  setChannelPerms_unset_role exSession unsetRoleConfig exGuild (by decide) (by decide)

/-- C6 as stated fails: with an empty `TimeoutRoleID`, `setChannelPerms` on the example
guild issues two overwrite calls. -/
theorem unset_role_sweep_issues_calls :
    unsetRoleConfig.Bot.TimeoutRoleID = "" ∧
      setChannelPerms exSession unsetRoleConfig = Except.ok
        [Call.ChannelPermissionSet "A" "" PermissionOverwriteType.PermissionOverwriteTypeRole
          2048 0,
         Call.ChannelPermissionSet "B" "" PermissionOverwriteType.PermissionOverwriteTypeRole
          0 34816] :=
  ⟨by decide, rfl⟩

/-- C10: with the empty `GuildID` of a configuration that names no guild, the guild lookup
of `setChannelPerms` fails and the function faults on the nil guild. -/
theorem setChannelPerms_unknown_guild_faults :
    exSession.State.Guild freshConfig.Bot.GuildID = none ∧
      setChannelPerms exSession freshConfig = Except.error Fault.nilPointerDereference :=
  ⟨by decide, rfl⟩

/-! ## Properties of `main` -/

/-- C7: when config.yml is absent, `main` ends in `log.Fatalln` with the path error of the
failed read, whatever the YAML decoder does; no default is created or written. -/
theorem main_absent_file_fatal (unmarshal : String → Config → Except GoError Config) :
    main unmarshal none = Startup.fatal (GoError.PathError "open" "config.yml" ENOENT) := by
  simp [main, osReadFile]

/-! ## Properties of `interactionHandler` -/

theorem hasRole_eq_false (m : Member) (r : String) (h : r ∉ m.Roles) :
    hasRole m r = false := by
  unfold hasRole
  rw [List.any_eq_false]
  intro x hx hxr
  exact h (beq_iff_eq.1 hxr ▸ hx)

theorem authorized_eq_false (cfg : Config) (g : Guild) (i : Interaction)
    (h1 : i.Member.User.ID ≠ g.OwnerID) (h2 : cfg.Bot.ModRoleID ∉ i.Member.Roles) :
    authorized cfg g i = false := by
  unfold authorized
  rw [hasRole_eq_false _ _ h2]
  simp [h1]

theorem step_of_noop (api : Call → Bool) (w : World) (i : Interaction) (kind : Int)
    (h : interactionHandler api w.session w.cfg i kind = Except.ok (w.cfg, [])) :
    step api w i kind = Except.ok (w, []) := by
  unfold step
  rw [h]
  rfl

/-- C2: for an actor who is not the guild owner, with role ids that are platform ids (none
is the empty string), a timeout or untimeout command takes effect only if the mod role is
set and held by the actor: when `cfg.Bot.ModRoleID` is unset (empty), or set but not among
the roles of the actor, no call is issued, so no role is changed and no response is sent,
and `cfg` and the world are unchanged. -/
theorem toggle_without_mod_role_dropped (api : Call → Bool) (w : World) (i : Interaction)
    (kind : Int) (hk : kind = 0 ∨ kind = 1)
    (howner : ∀ g, w.session.State.Guild i.GuildID = some g → i.Member.User.ID ≠ g.OwnerID)
    (hids : "" ∉ i.Member.Roles)
    (hrole : w.cfg.Bot.ModRoleID = "" ∨ w.cfg.Bot.ModRoleID ∉ i.Member.Roles) :
    step api w i kind = Except.ok (w, []) := by
  have hnot : w.cfg.Bot.ModRoleID ∉ i.Member.Roles := by
    rcases hrole with h | h
    · rw [h]; exact hids
    · exact h
  apply step_of_noop
  unfold interactionHandler
  cases hg : w.session.State.Guild i.GuildID with
  | none => rfl
  | some g =>
    simp only [authorized_eq_false w.cfg g i (howner g hg) hnot]
    rcases hk with hk | hk <;> simp [hk]

/-- Witness of C2: with no mod role configured, the moderator of the example guild, who
holds role M1 and is not the owner, asks for a timeout of u1. -/
theorem toggle_without_mod_role_dropped_witness :
    step apiOk ⟨exSession, noModConfig, []⟩ modOnU1 0 =
      Except.ok (⟨exSession, noModConfig, []⟩, []) :=
  toggle_without_mod_role_dropped apiOk ⟨exSession, noModConfig, []⟩ modOnU1 0 (Or.inl rfl)
    (by
      intro g hg
      have h : g = exGuild := by
        have h2 : (⟨exSession, noModConfig, []⟩ : World).session.State.Guild modOnU1.GuildID =
            some exGuild := by decide
        rw [h2] at hg
        exact (Option.some.inj hg).symm
      rw [h]
      decide)
    (by decide) (Or.inl rfl)

/-- C3: for an actor who is not the guild owner, holder of the mod role or not, the commands
of kind 2, 3 and 4 issue no call (no overwrite, no file write, no response) and leave `cfg`
and the world unchanged. -/
theorem config_commands_owner_only (api : Call → Bool) (w : World) (i : Interaction)
    (kind : Int) (hk : kind = 2 ∨ kind = 3 ∨ kind = 4)
    (howner : ∀ g, w.session.State.Guild i.GuildID = some g → i.Member.User.ID ≠ g.OwnerID) :
    step api w i kind = Except.ok (w, []) := by
  apply step_of_noop
  unfold interactionHandler
  cases hg : w.session.State.Guild i.GuildID with
  | none => rfl
  | some g =>
    have hne := howner g hg
    rcases hk with hk | hk | hk <;> simp [hk, hne]

/-- Witness of C3: the moderator of the example guild asks to make B the timeout channel. -/
theorem config_commands_owner_only_witness :
    step apiOk ⟨exSession, exConfig, []⟩ modOnB 4 =
      Except.ok (⟨exSession, exConfig, []⟩, []) :=
  config_commands_owner_only apiOk ⟨exSession, exConfig, []⟩ modOnB 4 (Or.inr (Or.inr rfl))
    (by
      intro g hg
      have h : g = exGuild := by
        have h2 : (⟨exSession, exConfig, []⟩ : World).session.State.Guild modOnB.GuildID =
            some exGuild := by decide
        rw [h2] at hg
        exact (Option.some.inj hg).symm
      rw [h]
      decide)

theorem setChannelPerms_of_guild (s : Session) (cfg : Config) (g : Guild)
    (hg : s.State.Guild cfg.Bot.GuildID = some g) :
    setChannelPerms s cfg = Except.ok (g.Channels.map (channelPerm cfg)) := by
  unfold setChannelPerms
  rw [hg]

theorem filter_isResponse_sweep (cfg : Config) (chs : List Channel) :
    (chs.map (channelPerm cfg)).filter isResponse = [] := by
  rw [List.filter_eq_nil_iff]
  intro c hc
  rcases List.mem_map.1 hc with ⟨ch, _, rfl⟩
  unfold channelPerm
  split <;> simp [isResponse]

/-- C8: for the owner naming a text channel, the command of kind 4 returns with `cfg`
holding the new timeout channel and the invoking guild, and its calls are, in order: the
deferred placeholder response, the removal and the write of config.yml with the new `cfg`,
one overwrite call per channel of the guild computed from the new `cfg`, and the follow-up
naming the channel. The placeholder and the follow-up are its only two responses. -/
theorem setTimeoutChannel_trace (api : Call → Bool) (s : Session) (cfg : Config)
    (i : Interaction) (g : Guild)
    (hg : s.State.Guild i.GuildID = some g) (howner : i.Member.User.ID = g.OwnerID)
    (htext : i.ChannelValueType = ChannelTypeGuildText) :
    ∃ cfg1 calls, interactionHandler api s cfg i 4 = Except.ok (cfg1, calls) ∧
      cfg1.Bot.TimeoutChannel = i.Option0 ∧ cfg1.Bot.GuildID = i.GuildID ∧
      cfg1.Bot.ModRoleID = cfg.Bot.ModRoleID ∧ cfg1.Bot.TimeoutRoleID = cfg.Bot.TimeoutRoleID ∧
      cfg1.Bot.PermissionAll = cfg.Bot.PermissionAll ∧
      cfg1.Bot.PermissionTimeout = cfg.Bot.PermissionTimeout ∧
      calls =
        Call.InteractionRespond
          InteractionResponseType.InteractionResponseDeferredChannelMessageWithSource
          "Loading..." ::
        Call.osRemove "config.yml" :: Call.osWriteFile "config.yml" cfg1 ::
        (g.Channels.map (channelPerm cfg1) ++
          [Call.FollowupMessageCreate s.State.User.ID true
            ("<#" ++ i.Option0 ++ "> has been set as the new timeout channel.")]) ∧
      calls.filter isResponse =
        [Call.InteractionRespond
          InteractionResponseType.InteractionResponseDeferredChannelMessageWithSource
          "Loading...",
         Call.FollowupMessageCreate s.State.User.ID true
            ("<#" ++ i.Option0 ++ "> has been set as the new timeout channel.")] := by
  refine ⟨⟨{ cfg.Bot with TimeoutChannel := i.Option0, GuildID := i.GuildID }⟩, _,
    ?_, rfl, rfl, rfl, rfl, rfl, rfl, rfl, ?_⟩
  · unfold interactionHandler
    rw [hg]
    have hauth : authorized cfg g i = true := by simp [authorized, howner]
    have hsweep := setChannelPerms_of_guild s
      ⟨{ cfg.Bot with TimeoutChannel := i.Option0, GuildID := i.GuildID }⟩ g hg
    simp [hauth, howner, htext, hsweep, updateConfigFile]
  · simp [List.filter_cons, isResponse, filter_isResponse_sweep]

/-- Witness of C8: the owner of the example guild makes B the timeout channel. -/
theorem setTimeoutChannel_trace_witness :
    ∃ cfg1 calls, interactionHandler apiOk exSession exConfig ownerOnB 4 =
        Except.ok (cfg1, calls) ∧
      cfg1.Bot.TimeoutChannel = ownerOnB.Option0 ∧ cfg1.Bot.GuildID = ownerOnB.GuildID ∧
      cfg1.Bot.ModRoleID = exConfig.Bot.ModRoleID ∧
      cfg1.Bot.TimeoutRoleID = exConfig.Bot.TimeoutRoleID ∧
      cfg1.Bot.PermissionAll = exConfig.Bot.PermissionAll ∧
      cfg1.Bot.PermissionTimeout = exConfig.Bot.PermissionTimeout ∧
      calls =
        Call.InteractionRespond
          InteractionResponseType.InteractionResponseDeferredChannelMessageWithSource
          "Loading..." ::
        Call.osRemove "config.yml" :: Call.osWriteFile "config.yml" cfg1 ::
        (exGuild.Channels.map (channelPerm cfg1) ++
          [Call.FollowupMessageCreate exSession.State.User.ID true
            ("<#" ++ ownerOnB.Option0 ++ "> has been set as the new timeout channel.")]) ∧
      calls.filter isResponse =
        [Call.InteractionRespond
          InteractionResponseType.InteractionResponseDeferredChannelMessageWithSource
          "Loading...",
         Call.FollowupMessageCreate exSession.State.User.ID true
            ("<#" ++ ownerOnB.Option0 ++ "> has been set as the new timeout channel.")] :=
  setTimeoutChannel_trace apiOk exSession exConfig ownerOnB exGuild (by decide) (by decide)
    (by decide)

/-- C9: for an authorized timeout command on a member without the timeout role whose
`GuildMemberRoleAdd` fails, and for an authorized untimeout command on a member with the
role whose `GuildMemberRoleRemove` fails, the failed call is the only call: no response is
sent, and `cfg` and the world are unchanged. -/
theorem toggle_api_error_no_response (api : Call → Bool) (w : World) (i : Interaction)
    (kind : Int) (g : Guild) (m : Member)
    (hg : w.session.State.Guild i.GuildID = some g)
    (hauth : authorized w.cfg g i = true)
    (hm : g.Members.find? (fun m => m.User.ID == i.Option0) = some m)
    (hfail :
      (kind = 0 ∧ hasRole m w.cfg.Bot.TimeoutRoleID = false ∧
        api (Call.GuildMemberRoleAdd g.ID m.User.ID w.cfg.Bot.TimeoutRoleID) = false) ∨
      (kind = 1 ∧ hasRole m w.cfg.Bot.TimeoutRoleID = true ∧
        api (Call.GuildMemberRoleRemove g.ID m.User.ID w.cfg.Bot.TimeoutRoleID) = false)) :
    step api w i kind = Except.ok (w,
      [if kind = 0 then Call.GuildMemberRoleAdd g.ID m.User.ID w.cfg.Bot.TimeoutRoleID
       else Call.GuildMemberRoleRemove g.ID m.User.ID w.cfg.Bot.TimeoutRoleID]) := by
  unfold step interactionHandler
  rw [hg]
  rcases hfail with ⟨hk, hr, hapi⟩ | ⟨hk, hr, hapi⟩
  · simp [hauth, hm, hk, hr, hapi, applyCalls, applyCall]
  · simp [hauth, hm, hk, hr, hapi, applyCalls, applyCall]

/-- Witness of C9: the moderator asks for a timeout of u1 on a platform where every call
fails. -/
theorem toggle_api_error_no_response_witness :
    step apiErr ⟨exSession, exConfig, []⟩ modOnU1 0 =
      Except.ok (⟨exSession, exConfig, []⟩,
        [if (0 : Int) = 0 then Call.GuildMemberRoleAdd exGuild.ID "u1" "R1"
         else Call.GuildMemberRoleRemove exGuild.ID "u1" "R1"]) :=
  toggle_api_error_no_response apiErr ⟨exSession, exConfig, []⟩ modOnU1 0 exGuild
    ⟨⟨"u1"⟩, []⟩ (by decide) (by decide) (by decide)
    (Or.inl ⟨rfl, by decide, by decide⟩)

theorem applyCall_cfg (api : Call → Bool) (w : World) (c : Call) :
    (applyCall api w c).cfg = w.cfg := by
  unfold applyCall
  split
  · split <;> rfl
  · rfl

theorem applyCalls_cfg (api : Call → Bool) (calls : List Call) (w : World) :
    (applyCalls api w calls).cfg = w.cfg := by
  induction calls generalizing w with
  | nil => rfl
  | cons c cs ih =>
    simp only [applyCalls, List.foldl_cons] at ih ⊢
    rw [ih, applyCall_cfg]

theorem applyCall_of_isResponse (api : Call → Bool) (w : World) (c : Call)
    (h : isResponse c = true) : applyCall api w c = w := by
  unfold applyCall
  cases c <;> simp [isResponse] at h ⊢

theorem applyCalls_append (api : Call → Bool) (w : World) (xs ys : List Call) :
    applyCalls api w (xs ++ ys) = applyCalls api (applyCalls api w xs) ys := by
  simp [applyCalls, List.foldl_append]

/-- The value of `cfg` after the two assignments of case 4 of `interactionHandler`. -/
def cfgCase4 (cfg : Config) (i : Interaction) : Config :=
  ⟨{ cfg.Bot with TimeoutChannel := i.Option0, GuildID := i.GuildID }⟩

/-- The calls of case 4 of `interactionHandler` past the owner and channel type test, for
the guild `g` found by the sweep. -/
def callsCase4 (s : Session) (cfg : Config) (i : Interaction) (g : Guild) : List Call :=
  Call.InteractionRespond
    InteractionResponseType.InteractionResponseDeferredChannelMessageWithSource "Loading..." ::
  Call.osRemove "config.yml" :: Call.osWriteFile "config.yml" (cfgCase4 cfg i) ::
  (g.Channels.map (channelPerm (cfgCase4 cfg i)) ++
    [Call.FollowupMessageCreate s.State.User.ID true
      ("<#" ++ i.Option0 ++ "> has been set as the new timeout channel.")])

theorem interactionHandler_kind4_owner (api : Call → Bool) (s : Session) (cfg : Config)
    (i : Interaction) (g : Guild)
    (hg : s.State.Guild i.GuildID = some g) (howner : i.Member.User.ID = g.OwnerID)
    (htext : i.ChannelValueType = ChannelTypeGuildText) :
    interactionHandler api s cfg i 4 = Except.ok (cfgCase4 cfg i, callsCase4 s cfg i g) := by
  unfold interactionHandler
  rw [hg]
  have hauth : authorized cfg g i = true := by simp [authorized, howner]
  have hsweep := setChannelPerms_of_guild s (cfgCase4 cfg i) g hg
  unfold cfgCase4 at hsweep
  simp [hauth, howner, htext, hsweep, updateConfigFile, callsCase4, cfgCase4]

theorem overwrites_after_case4 (api : Call → Bool) (w : World) (i : Interaction) (g : Guild)
    (hok : ∀ c ∈ callsCase4 w.session w.cfg i g, api c = true) (ch : Channel)
    (hch : ch ∈ g.Channels) :
    overwriteOf (applyCalls api { w with cfg := cfgCase4 w.cfg i }
        (callsCase4 w.session w.cfg i g)).overwrites ch.ID w.cfg.Bot.TimeoutRoleID =
      some (if ch.ID = i.Option0 then
          ⟨ch.ID, w.cfg.Bot.TimeoutRoleID, w.cfg.Bot.PermissionTimeout, 0⟩
        else ⟨ch.ID, w.cfg.Bot.TimeoutRoleID, 0, w.cfg.Bot.PermissionAll⟩) := by
  have hsweepok : ∀ c ∈ g.Channels, api (channelPerm (cfgCase4 w.cfg i) c) = true := by
    intro c hc
    apply hok
    simp only [callsCase4, List.mem_cons, List.mem_append, List.mem_map]
    exact Or.inr (Or.inr (Or.inr (Or.inl ⟨c, hc, rfl⟩)))
  have h := applyCalls_sweep api (cfgCase4 w.cfg i) ch g.Channels
    { w with cfg := cfgCase4 w.cfg i } hsweepok (Or.inl hch)
  have e1 : ∀ (v : World) (c : Call) (cs : List Call),
      applyCalls api v (c :: cs) = applyCalls api (applyCall api v c) cs :=
    fun _ _ _ => rfl
  have e2 : ∀ (v : World) (n : String), applyCall api v (Call.osRemove n) = v := by
    intro v n; simp [applyCall]
  have e3 : ∀ (v : World) (n : String) (d : Config),
      applyCall api v (Call.osWriteFile n d) = v := by
    intro v n d; simp [applyCall]
  have e4 : ∀ v : World, applyCalls api v [] = v := fun _ => rfl
  have e5 : ∀ (v : World) (t : InteractionResponseType) (c : String),
      applyCall api v (Call.InteractionRespond t c) = v :=
    fun v t c => applyCall_of_isResponse api v _ rfl
  have e6 : ∀ (v : World) (a : String) (b : Bool) (c : String),
      applyCall api v (Call.FollowupMessageCreate a b c) = v :=
    fun v a b c => applyCall_of_isResponse api v _ rfl
  unfold callsCase4
  rw [e1, e5, e1, e2, e1, e3, applyCalls_append, e1, e6, e4]
  have hrole : (cfgCase4 w.cfg i).Bot.TimeoutRoleID = w.cfg.Bot.TimeoutRoleID := rfl
  rw [hrole] at h
  rw [h]
  unfold permOverwrite
  rfl

/-- C4: in a guild with two channels A and B of distinct ids, B a text channel, and with A
the configured timeout channel, the command of kind 4 by the owner naming B returns, with B
the configured timeout channel; once all its calls have succeeded, A carries the deny
overwrite (deny PermissionAll, allow 0) and B the allow overwrite (deny 0, allow
PermissionTimeout) for the timeout role, every channel of the guild other than B carries
the deny overwrite, and, unless both masks are 0 (the two overwrites are then the same),
B is the only channel of the guild that carries the allow overwrite. -/
theorem setTimeoutChannel_supersedes (api : Call → Bool) (w : World) (i : Interaction)
    (g : Guild) (A B : Channel)
    (hg : w.session.State.Guild i.GuildID = some g)
    (hA : A ∈ g.Channels) (hB : B ∈ g.Channels) (hAB : A.ID ≠ B.ID)
    (hBtext : B.ChanType = ChannelTypeGuildText)
    (hcur : w.cfg.Bot.TimeoutChannel = A.ID)
    (howner : i.Member.User.ID = g.OwnerID)
    (hopt : i.Option0 = B.ID) (htype : i.ChannelValueType = B.ChanType) :
    ∃ w1 calls, step api w i 4 = Except.ok (w1, calls) ∧
      w.cfg.Bot.TimeoutChannel ≠ B.ID ∧ w1.cfg.Bot.TimeoutChannel = B.ID ∧
      ((∀ c ∈ calls, api c = true) →
        overwriteOf w1.overwrites A.ID w.cfg.Bot.TimeoutRoleID =
          some ⟨A.ID, w.cfg.Bot.TimeoutRoleID, 0, w.cfg.Bot.PermissionAll⟩ ∧
        overwriteOf w1.overwrites B.ID w.cfg.Bot.TimeoutRoleID =
          some ⟨B.ID, w.cfg.Bot.TimeoutRoleID, w.cfg.Bot.PermissionTimeout, 0⟩ ∧
        (∀ ch ∈ g.Channels, ch.ID ≠ B.ID →
          overwriteOf w1.overwrites ch.ID w.cfg.Bot.TimeoutRoleID =
            some ⟨ch.ID, w.cfg.Bot.TimeoutRoleID, 0, w.cfg.Bot.PermissionAll⟩) ∧
        (w.cfg.Bot.PermissionAll ≠ 0 ∨ w.cfg.Bot.PermissionTimeout ≠ 0 →
          ∀ ch ∈ g.Channels,
            overwriteOf w1.overwrites ch.ID w.cfg.Bot.TimeoutRoleID =
              some ⟨ch.ID, w.cfg.Bot.TimeoutRoleID, w.cfg.Bot.PermissionTimeout, 0⟩ →
            ch.ID = B.ID)) := by
  have hstep : step api w i 4 = Except.ok
      (applyCalls api { w with cfg := cfgCase4 w.cfg i } (callsCase4 w.session w.cfg i g),
        callsCase4 w.session w.cfg i g) := by
    unfold step
    rw [interactionHandler_kind4_owner api w.session w.cfg i g hg howner (htype.trans hBtext)]
  refine ⟨_, _, hstep, ?_, ?_, ?_⟩
  · rw [hcur]; exact hAB
  · rw [applyCalls_cfg]
    exact hopt
  · intro hok
    have key := overwrites_after_case4 api w i g hok
    rw [hopt] at key
    refine ⟨?_, ?_, ?_, ?_⟩
    · rw [key A hA, if_neg hAB]
    · rw [key B hB, if_pos rfl]
    · intro ch hch hne
      rw [key ch hch, if_neg hne]
    · intro hmask ch hch hallow
      by_contra hne
      rw [key ch hch, if_neg hne] at hallow
      have h1 := Option.some.inj hallow
      have h2 : (0 : Int) = w.cfg.Bot.PermissionTimeout := congrArg Overwrite.Allow h1
      have h3 : w.cfg.Bot.PermissionAll = 0 := congrArg Overwrite.Deny h1
      rcases hmask with hm | hm
      · exact hm h3
      · exact hm h2.symm

/-- Witness of C4 on the example guild, whose timeout channel is A: the owner names B. -/
theorem setTimeoutChannel_supersedes_witness :
    ∃ w1 calls, step apiOk ⟨exSession, exConfig, []⟩ ownerOnB 4 = Except.ok (w1, calls) ∧
      exConfig.Bot.TimeoutChannel ≠ "B" ∧ w1.cfg.Bot.TimeoutChannel = "B" ∧
      ((∀ c ∈ calls, apiOk c = true) →
        overwriteOf w1.overwrites "A" "R1" = some ⟨"A", "R1", 0, 34816⟩ ∧
        overwriteOf w1.overwrites "B" "R1" = some ⟨"B", "R1", 2048, 0⟩ ∧
        (∀ ch ∈ exGuild.Channels, ch.ID ≠ "B" →
          overwriteOf w1.overwrites ch.ID "R1" = some ⟨ch.ID, "R1", 0, 34816⟩) ∧
        ((34816 : Int) ≠ 0 ∨ (2048 : Int) ≠ 0 →
          ∀ ch ∈ exGuild.Channels,
            overwriteOf w1.overwrites ch.ID "R1" = some ⟨ch.ID, "R1", 2048, 0⟩ →
            ch.ID = "B")) :=
  setTimeoutChannel_supersedes apiOk ⟨exSession, exConfig, []⟩ ownerOnB exGuild
    ⟨"A", 0⟩ ⟨"B", 0⟩ (by decide) (by decide) (by decide) (by decide) (by decide)
    (by decide) (by decide) (by decide) (by decide)

/-! ## A toggle on a member already in the requested state -/

/-- The moderator puts u1 on timeout: the role is granted and the confirmation sent. -/
theorem run_timeout_by_mod :
    interactionHandler apiOk exSession exConfig modOnU1 0 =
      Except.ok (exConfig,
        [Call.GuildMemberRoleAdd "g1" "u1" "R1",
         Call.InteractionRespond
           InteractionResponseType.InteractionResponseChannelMessageWithSource
           "<@u1> has been put on timeout."]) :=
  rfl

/-- That command leaves the session cache as it was, and once the cache shows u1 with role
R1 the same command issues no call. -/
theorem run_timeout_by_mod_again :
    step apiOk ⟨exSession, exConfig, []⟩ modOnU1 0 =
      Except.ok (⟨exSession, exConfig, []⟩,
        [Call.GuildMemberRoleAdd "g1" "u1" "R1",
         Call.InteractionRespond
           InteractionResponseType.InteractionResponseChannelMessageWithSource
           "<@u1> has been put on timeout."]) ∧
    interactionHandler apiOk timedOutSession exConfig modOnU1 0 = Except.ok (exConfig, []) :=
  ⟨rfl, rfl⟩

/-- The owner sets the mod role to the role named by option 0: `cfg` is updated, written,
and the confirmation sent, with no sweep. -/
theorem run_set_mod_role_by_owner :
    interactionHandler apiOk exSession exConfig ownerOnU1 2 =
      Except.ok (⟨⟨"", "A", "u1", "R1", "g1", 34816, 2048⟩⟩,
        [Call.osRemove "config.yml",
         Call.osWriteFile "config.yml" ⟨⟨"", "A", "u1", "R1", "g1", 34816, 2048⟩⟩,
         Call.InteractionRespond
           InteractionResponseType.InteractionResponseChannelMessageWithSource
           "<@u1> has been set as the new mod role."]) :=
  rfl

/-- With config.yml present and a decoder that returns the stored configuration, `main`
goes on with that configuration and touches no file. -/
theorem run_main_present_file :
    main (fun _ _ => Except.ok exConfig) (some "bot: ...") = Startup.proceeds exConfig [] :=
  rfl

end CoryBot
